import Mathlib

/-!
# Verification of the finance_monitor volatility pipeline

Shallow embedding of the volatility-detection core of the repository:

* `core/analyzers/volatility_analyzer.py` (`VolatilityAnalyzer`)
* `core/threshold_manager.py` (`ThresholdManager`)
* `core/notifiers/wechat_notifier.py` (`WeChatNotifier._format_alert_message`)
* `models/market_data.py` (`PriceData`, `VolatilityAlert`)

Python floats are modelled as rationals (`ℚ`), Python dictionaries as
association lists with last-write-wins insertion, and the process clock
(`datetime.now()`) as an explicit `Int` parameter (epoch seconds).  The
dynamically typed `timestamp` attribute of a `PriceData` — which at runtime
is either an ISO-8601 string or a `datetime` object, depending on the
producing call site — is modelled by the sum type `PyTimestamp`; a
well-formed ISO string is represented by the instant it denotes.  Python
exceptions are modelled with `Except`: code that may raise returns
`Except PyExn _`, and a `try/except` block is a `match` that maps the
`error` case to the handler's result.

The external database collaborator (`MarketDataDB.get_historical_prices`)
is abstracted as a function parameter of type `HistDB`; per the SQL query
in `models/market_data.py` it returns the persisted rows for the requested
(symbol, market, frequency) window in ascending timestamp order, or raises.
-/

namespace FinanceMonitor

/-- Python exception classes relevant to the analyzer paths. -/
inductive PyExn where
  | typeError
  | valueError
  | dbError
deriving DecidableEq, Repr

/-- The runtime value of `PriceData.timestamp`.  The dataclass annotates it
as `datetime`, but several call sites store an ISO-8601 string instead
(the daily analyzer parses it with `datetime.fromisoformat`, while the
weekly analyzer subtracts a `timedelta` from it directly).  A well-formed
ISO string is modelled by the instant (epoch seconds) it denotes. -/
inductive PyTimestamp where
  | str (v : Int)
  | dt (v : Int)
deriving DecidableEq, Repr

/-- `datetime.fromisoformat(x)`: parses an ISO string into a `datetime`;
raises `TypeError` when the argument is not a string (in particular when
it is already a `datetime`, as built by `VolatilityConsumer`). -/
def datetime_fromisoformat : PyTimestamp → Except PyExn Int
  | .str v => .ok v
  | .dt _ => .error .typeError

/-- `models/market_data.py` `PriceData` (OHLCV tick).  `open` is a Lean
keyword, hence the trailing underscore. -/
structure PriceData where
  symbol : String
  market : String
  timestamp : PyTimestamp
  open_ : ℚ
  high : ℚ
  low : ℚ
  close : ℚ
  volume : ℚ := 0
  frequency : String := "1m"
deriving DecidableEq, Repr

/-- `models/market_data.py` `VolatilityAlert`.  The `timestamp` field is
filled by the analyzer with `datetime.now()`, modelled as an `Int`
parameter threaded through the analysis functions. -/
structure VolatilityAlert where
  symbol : String
  name : String
  frequency : String
  current_change : ℚ
  threshold : ℚ
  current_price : ℚ
  previous_price : ℚ
  timestamp : Int
  volume : Option ℚ := none
deriving DecidableEq, Repr

/-! ## Python dict helpers

`ThresholdManager.threshold_cache` and `VolatilityAnalyzer.price_history`
are Python dicts with string keys.  They are modelled as association lists:
`dictGet` is `d.get(k)` / `k in d` + `d[k]`, and `dictSet` is
`d[k] = v` (overwriting any previous binding). -/

/-- `d.get(k)` on a string-keyed dict. -/
def dictGet {β : Type} : List (String × β) → String → Option β
  | [], _ => none
  | (k, v) :: rest, key => if k = key then some v else dictGet rest key

/-- `d[k] = v` on a string-keyed dict (upsert, last write wins). -/
def dictSet {β : Type} : List (String × β) → String → β → List (String × β)
  | [], key, value => [(key, value)]
  | (k, v) :: rest, key, value =>
      if k = key then (key, value) :: rest else (k, v) :: dictSet rest key value

theorem dictGet_dictSet_self {β : Type} (d : List (String × β)) (k : String) (v : β) :
    dictGet (dictSet d k v) k = some v := by
  induction d with
  | nil => simp [dictGet, dictSet]
  | cons hd tl ih =>
      obtain ⟨k', v'⟩ := hd
      by_cases h : k' = k
      · simp [dictGet, dictSet, h]
      · simp [dictGet, dictSet, h, ih]

/-! ## `core/threshold_manager.py` -/

/-- `ThresholdManager._get_cache_key`. -/
def get_cache_key (symbol market frequency : String) : String :=
  symbol ++ "_" ++ market ++ "_" ++ frequency

/-- `ThresholdManager._get_default_threshold`: the dict literal
`{'minute': 2.0, 'daily': 3.0, 'weekly': 5.0}.get(frequency, 2.0)`. -/
def get_default_threshold (frequency : String) : ℚ :=
  if frequency = "minute" then 2
  else if frequency = "daily" then 3
  else if frequency = "weekly" then 5
  else 2

/-- The `threshold_cache` dict of a `ThresholdManager`. -/
abbrev ThresholdCache := List (String × ℚ)

/-- `ThresholdManager.get_threshold`: exact lookup by the composed cache
key, with `dict.get`'s default being the frequency-level default.  Total:
never raises. -/
def get_threshold (cache : ThresholdCache) (symbol frequency : String)
    (market : String := "") : ℚ :=
  (dictGet cache (get_cache_key symbol market frequency)).getD
    (get_default_threshold frequency)

/-- `ThresholdManager.update_threshold`: unconditional upsert of the
supplied value — the source performs no validation of `threshold`. -/
def update_threshold (cache : ThresholdCache) (symbol market frequency : String)
    (threshold : ℚ) : ThresholdCache :=
  dictSet cache (get_cache_key symbol market frequency) threshold

/-! ## `VolatilityAnalyzer.calculate_change_percent` -/

/-- `VolatilityAnalyzer.calculate_change_percent`: guarded percentage
change.  Total (the `previous == 0` guard removes the only division that
could fail). -/
def calculate_change_percent (current previous : ℚ) : ℚ :=
  if previous = 0 then 0 else (current - previous) / previous * 100

/-! ## Claims C1, C7, C8 -/

/-- C1: for every previous close `p > 0` and every current close `c`,
`calculate_change_percent c p = (c - p) / p * 100`; for `p = 0` the result
is exactly `0`, and the function is total (no division error is possible:
the guarded branch never divides). -/
theorem calculate_change_percent_spec (c p : ℚ) :
    (0 < p → calculate_change_percent c p = (c - p) / p * 100) ∧
    calculate_change_percent c 0 = 0 := by
  constructor
  · intro hp
    unfold calculate_change_percent
    rw [if_neg (ne_of_gt hp)]
  · simp [calculate_change_percent]

/-- Witness for C1 at `c = 103`, `p = 100`. -/
theorem calculate_change_percent_spec_witness :
    calculate_change_percent 103 100 = (103 - 100) / 100 * 100 :=
  (calculate_change_percent_spec 103 100).1 (by norm_num)

/-- C7: `get_threshold` is an exact-match lookup on `(symbol, market,
frequency)` (a hit returns the stored value), it is total (hence never
raises), and on a miss it returns the frequency-level default: `2` for
minute, `3` for daily, `5` for weekly. -/
theorem get_threshold_spec (cache : ThresholdCache) (symbol market : String) :
    (∀ frequency v,
        dictGet cache (get_cache_key symbol market frequency) = some v →
        get_threshold cache symbol frequency market = v) ∧
    (dictGet cache (get_cache_key symbol market "minute") = none →
        get_threshold cache symbol "minute" market = 2) ∧
    (dictGet cache (get_cache_key symbol market "daily") = none →
        get_threshold cache symbol "daily" market = 3) ∧
    (dictGet cache (get_cache_key symbol market "weekly") = none →
        get_threshold cache symbol "weekly" market = 5) := by
  refine ⟨?_, ?_, ?_, ?_⟩
  · intro frequency v h
    simp [get_threshold, h]
  all_goals intro h; simp [get_threshold, h, get_default_threshold]

/-- Witness for C7 on the empty cache (every lookup misses). -/
theorem get_threshold_spec_witness :
    get_threshold [] "AAPL" "minute" "US" = 2 ∧
    get_threshold [] "AAPL" "daily" "US" = 3 ∧
    get_threshold [] "AAPL" "weekly" "US" = 5 :=
  ⟨(get_threshold_spec [] "AAPL" "US").2.1 rfl,
   (get_threshold_spec [] "AAPL" "US").2.2.1 rfl,
   (get_threshold_spec [] "AAPL" "US").2.2.2 rfl⟩

/-- C8 counterexample: `update_threshold` accepts a non-positive value
as-is.  After storing `-1` for `(AAPL, US, minute)`, the stored threshold
returned by `get_threshold` is `-1`, which is not positive — so it is
false that after any sequence of `update_threshold` calls every stored
threshold is a positive float. -/
theorem update_threshold_accepts_nonpositive :
    get_threshold (update_threshold [] "AAPL" "US" "minute" (-1))
        "AAPL" "minute" "US" = -1 ∧
    ¬ (0 : ℚ) < -1 := by
  constructor
  · rfl
  · norm_num

/-- C8 (amended): `update_threshold` upserts the entry for
`(symbol, market, frequency)` with the supplied value unconditionally —
no validation, rejection or clamping is performed, so the value read back
for that key is exactly the supplied one, positive or not. -/
theorem update_threshold_upserts (cache : ThresholdCache)
    (symbol market frequency : String) (v : ℚ) :
    get_threshold (update_threshold cache symbol market frequency v)
        symbol frequency market = v := by
  unfold get_threshold update_threshold
  rw [dictGet_dictSet_self]
  rfl

/-! ## `core/analyzers/volatility_analyzer.py` -/

/-- The mutable fields of a `VolatilityAnalyzer`: the injected
`ThresholdManager`'s cache and the in-process `price_history` dict
(last-seen tick per `market_symbol` key). -/
structure VolatilityAnalyzer where
  thresholds : ThresholdCache
  price_history : List (String × PriceData)
deriving DecidableEq, Repr

/-- The minute-path cache key `f"{market}_{symbol}"` (note the order:
market first, unlike the threshold cache key). -/
def symbol_key (d : PriceData) : String :=
  d.market ++ "_" ++ d.symbol

/-- `VolatilityAnalyzer.analyze_minute_volatility`.  Returns the optional
alert together with the analyzer state after the call.  The source updates
`price_history[symbol_key]` only on the paths that fall through to the
final `return None`; the alert branch returns early, leaving the cache
unchanged.  `now` models `datetime.now()`. -/
def analyze_minute_volatility (a : VolatilityAnalyzer) (current_data : PriceData)
    (now : Int) : Option VolatilityAlert × VolatilityAnalyzer :=
  match dictGet a.price_history (symbol_key current_data) with
  | some previous_data =>
      let change_percent :=
        calculate_change_percent current_data.close previous_data.close
      let threshold :=
        get_threshold a.thresholds current_data.symbol "minute" current_data.market
      if threshold ≤ |change_percent| then
        (some { symbol := current_data.symbol, name := current_data.symbol,
                frequency := "minute", current_change := change_percent,
                threshold := threshold, current_price := current_data.close,
                previous_price := previous_data.close, timestamp := now }, a)
      else
        (none, { a with price_history :=
                   dictSet a.price_history (symbol_key current_data) current_data })
  | none =>
      (none, { a with price_history :=
                 dictSet a.price_history (symbol_key current_data) current_data })

/-! ## Claims C2 and C3 (minute path) -/

/-- C2: for a (symbol, market) key with no cached history, the first
minute tick analyzed produces no alert (it is only recorded), and a second
tick for the same key whose absolute change against the stored prior close
meets or exceeds the threshold produces exactly one alert whose
`current_change` is the signed computed change, whose `current_price` is
the new close and whose `previous_price` is the prior close. -/
theorem minute_first_records_second_alerts (a : VolatilityAnalyzer)
    (t1 t2 : PriceData) (now1 now2 : Int)
    (hkey : symbol_key t2 = symbol_key t1)
    (habsent : dictGet a.price_history (symbol_key t1) = none)
    (hbreach : get_threshold a.thresholds t2.symbol "minute" t2.market ≤
        |calculate_change_percent t2.close t1.close|) :
    (analyze_minute_volatility a t1 now1).1 = none ∧
    (analyze_minute_volatility (analyze_minute_volatility a t1 now1).2 t2 now2).1 =
      some { symbol := t2.symbol, name := t2.symbol, frequency := "minute",
             current_change := calculate_change_percent t2.close t1.close,
             threshold := get_threshold a.thresholds t2.symbol "minute" t2.market,
             current_price := t2.close, previous_price := t1.close,
             timestamp := now2 } := by
  constructor
  · simp [analyze_minute_volatility, habsent]
  · simp [analyze_minute_volatility, habsent, hkey, dictGet_dictSet_self, hbreach]

/-- Witness for C2: the spec scenario — AAPL/US minute ticks with closes
100 then 103 under the default minute threshold 2.0 yield no alert, then
an alert with change 3, current price 103, previous price 100. -/
theorem minute_first_records_second_alerts_witness :
    (analyze_minute_volatility ⟨[], []⟩
        { symbol := "AAPL", market := "US", timestamp := .dt 0,
          open_ := 100, high := 100, low := 100, close := 100 } 0).1 = none ∧
    (analyze_minute_volatility
        (analyze_minute_volatility ⟨[], []⟩
          { symbol := "AAPL", market := "US", timestamp := .dt 0,
            open_ := 100, high := 100, low := 100, close := 100 } 0).2
        { symbol := "AAPL", market := "US", timestamp := .dt 60,
          open_ := 103, high := 103, low := 103, close := 103 } 1).1 =
      some { symbol := "AAPL", name := "AAPL", frequency := "minute",
             current_change := 3, threshold := 2, current_price := 103,
             previous_price := 100, timestamp := 1 } := by
  have h := minute_first_records_second_alerts ⟨[], []⟩
    { symbol := "AAPL", market := "US", timestamp := .dt 0,
      open_ := 100, high := 100, low := 100, close := 100 }
    { symbol := "AAPL", market := "US", timestamp := .dt 60,
      open_ := 103, high := 103, low := 103, close := 103 }
    0 1 rfl rfl
    (by simp only [get_threshold, get_cache_key, get_default_threshold, dictGet,
          calculate_change_percent, String.reduceAppend, String.reduceEq, reduceIte]
        norm_num)
  refine ⟨h.1, h.2.trans ?_⟩
  simp only [get_threshold, get_cache_key, get_default_threshold, dictGet,
    calculate_change_percent, String.reduceAppend, String.reduceEq, reduceIte]
  norm_num

/-- Example fixture: analyzer state holding AAPL/US close 100 as cached
minute history, with an empty threshold cache. -/
def exAnalyzerAAPL : VolatilityAnalyzer :=
  { thresholds := [],
    price_history :=
      [("US_AAPL",
        { symbol := "AAPL", market := "US", timestamp := .dt 0,
          open_ := 100, high := 100, low := 100, close := 100 })] }

/-- Example fixture: the follow-up AAPL/US tick with close 103, which
breaches the default minute threshold against a cached close of 100. -/
def exTickAAPL103 : PriceData :=
  { symbol := "AAPL", market := "US", timestamp := .dt 60,
    open_ := 103, high := 103, low := 103, close := 103 }

/-- C3 counterexample: when the AAPL tick with close 103 fires an alert
against the cached close 100, the last-seen cache for `US_AAPL` still
holds the old close-100 tick afterwards, not the new tick — the alert
branch returns before the cache update line runs.  This falsifies the
claim that the cache holds the new tick regardless of whether an alert was
emitted. -/
theorem minute_alert_leaves_cache_stale :
    ((analyze_minute_volatility exAnalyzerAAPL exTickAAPL103 1).1).isSome = true ∧
    dictGet (analyze_minute_volatility exAnalyzerAAPL exTickAAPL103 1).2.price_history
        "US_AAPL" =
      some { symbol := "AAPL", market := "US", timestamp := .dt 0,
             open_ := 100, high := 100, low := 100, close := 100 } ∧
    ({ symbol := "AAPL", market := "US", timestamp := .dt 0,
       open_ := 100, high := 100, low := 100, close := 100 } : PriceData) ≠
      exTickAAPL103 := by
  refine ⟨?_, ?_, ?_⟩ <;>
  · simp only [analyze_minute_volatility, symbol_key, dictGet, dictSet,
      get_threshold, get_cache_key, get_default_threshold,
      calculate_change_percent, exAnalyzerAAPL, exTickAAPL103,
      String.reduceAppend, String.reduceEq, reduceIte]
    norm_num [dictGet, String.reduceEq, reduceIte]

/-- C3 (amended): for a minute tick whose key has a cached prior tick,
the cache is updated to the new tick exactly when no alert is emitted;
when an alert is emitted the analyzer state (hence the cache entry) is
left unchanged, still holding the prior tick. -/
theorem minute_cache_update_policy (a : VolatilityAnalyzer) (t : PriceData)
    (now : Int) (prior : PriceData)
    (hprior : dictGet a.price_history (symbol_key t) = some prior) :
    ((analyze_minute_volatility a t now).1 = none →
        dictGet (analyze_minute_volatility a t now).2.price_history (symbol_key t) =
          some t) ∧
    ((analyze_minute_volatility a t now).1 ≠ none →
        (analyze_minute_volatility a t now).2 = a) := by
  by_cases hb : get_threshold a.thresholds t.symbol "minute" t.market ≤
      |calculate_change_percent t.close prior.close|
  · constructor
    · intro hnone
      simp [analyze_minute_volatility, hprior, hb] at hnone
    · intro _
      simp [analyze_minute_volatility, hprior, hb]
  · constructor
    · intro _
      simp [analyze_minute_volatility, hprior, hb, dictGet_dictSet_self]
    · intro hsome
      simp [analyze_minute_volatility, hprior, hb] at hsome

/-- Witness for C3 (amended): the spec's BTCUSDT scenario — cached close
50000, new close 50500, default threshold 2.0 — emits no alert and the
cache is updated to the new tick. -/
theorem minute_cache_update_policy_witness :
    (analyze_minute_volatility
        ⟨[], [("CRYPTO_BTCUSDT",
          { symbol := "BTCUSDT", market := "CRYPTO", timestamp := .dt 0,
            open_ := 50000, high := 50000, low := 50000, close := 50000 })]⟩
        { symbol := "BTCUSDT", market := "CRYPTO", timestamp := .dt 60,
          open_ := 50500, high := 50500, low := 50500, close := 50500 } 1).1 = none ∧
    dictGet (analyze_minute_volatility
        ⟨[], [("CRYPTO_BTCUSDT",
          { symbol := "BTCUSDT", market := "CRYPTO", timestamp := .dt 0,
            open_ := 50000, high := 50000, low := 50000, close := 50000 })]⟩
        { symbol := "BTCUSDT", market := "CRYPTO", timestamp := .dt 60,
          open_ := 50500, high := 50500, low := 50500, close := 50500 } 1).2.price_history
      "CRYPTO_BTCUSDT" =
      some { symbol := "BTCUSDT", market := "CRYPTO", timestamp := .dt 60,
             open_ := 50500, high := 50500, low := 50500, close := 50500 } := by
  have hnone : (analyze_minute_volatility
      ⟨[], [("CRYPTO_BTCUSDT",
        { symbol := "BTCUSDT", market := "CRYPTO", timestamp := .dt 0,
          open_ := 50000, high := 50000, low := 50000, close := 50000 })]⟩
      { symbol := "BTCUSDT", market := "CRYPTO", timestamp := .dt 60,
        open_ := 50500, high := 50500, low := 50500, close := 50500 } 1).1 = none := by
    simp only [analyze_minute_volatility, symbol_key, dictGet, dictSet,
      get_threshold, get_cache_key, get_default_threshold,
      calculate_change_percent, String.reduceAppend, String.reduceEq, reduceIte]
    norm_num
  have h := minute_cache_update_policy
    ⟨[], [("CRYPTO_BTCUSDT",
      { symbol := "BTCUSDT", market := "CRYPTO", timestamp := .dt 0,
        open_ := 50000, high := 50000, low := 50000, close := 50000 })]⟩
    { symbol := "BTCUSDT", market := "CRYPTO", timestamp := .dt 60,
      open_ := 50500, high := 50500, low := 50500, close := 50500 } 1
    { symbol := "BTCUSDT", market := "CRYPTO", timestamp := .dt 0,
      open_ := 50000, high := 50000, low := 50000, close := 50000 }
    (by simp [symbol_key, dictGet])
  exact ⟨hnone, h.1 hnone⟩

/-! ## Daily and weekly paths

`analyze_daily_volatility` and `analyze_weekly_volatility` consult the
database collaborator instead of the in-process cache.  The collaborator
(`MarketDataDB.get_historical_prices(symbol, market, frequency, start,
end)`) is abstracted as a `HistDB` function returning the persisted rows
of the requested window in ascending timestamp order, or raising.  In the
source, the window computation from `current_data.timestamp` sits BEFORE
the `try:` block, so an exception there (daily: `datetime.fromisoformat`
on a non-string; weekly: `timestamp - timedelta` on a string) propagates
out of the call, while an exception from the database call inside the
`try:` is caught, logged, and turned into `return None`. -/

/-- The historical-prices collaborator:
`(symbol, market, frequency, start_date, end_date) ↦ rows or exception`. -/
abbrev HistDB := String → String → String → Int → Int → Except PyExn (List PriceData)

/-- Default row for the guarded `historical_data[-2]` index (never
selected: the index is only taken under `2 ≤ length`). -/
def placeholderPriceData : PriceData :=
  { symbol := "", market := "", timestamp := .dt 0,
    open_ := 0, high := 0, low := 0, close := 0 }

/-- `VolatilityAnalyzer.analyze_daily_volatility`.  Faithful to the source
layout: `end_date = datetime.fromisoformat(current_data.timestamp)` and
the 4-day window run before the `try:`, so their `TypeError`/`ValueError`
propagates; the database query and everything after it run inside the
`try:`, whose handler logs and falls through to `return None`. -/
def analyze_daily_volatility (db : HistDB) (a : VolatilityAnalyzer)
    (current_data : PriceData) (now : Int) : Except PyExn (Option VolatilityAlert) :=
  match datetime_fromisoformat current_data.timestamp with
  | .error e => .error e
  | .ok end_date =>
      let start_date := end_date - 4 * 86400
      match db current_data.symbol current_data.market "1d" start_date end_date with
      | .error _ => .ok none
      | .ok historical_data =>
          if historical_data.length < 2 then .ok none
          else
            let latest_data := current_data
            let previous_data :=
              historical_data.getD (historical_data.length - 2) placeholderPriceData
            let change_percent :=
              calculate_change_percent latest_data.close previous_data.close
            let threshold :=
              get_threshold a.thresholds current_data.symbol "daily" current_data.market
            if threshold ≤ |change_percent| then
              .ok (some { symbol := current_data.symbol, name := current_data.symbol,
                          frequency := "daily", current_change := change_percent,
                          threshold := threshold, current_price := latest_data.close,
                          previous_price := previous_data.close, timestamp := now })
            else .ok none

/-- `VolatilityAnalyzer.analyze_weekly_volatility`.  Here the source uses
the raw attribute: `end_date = current_data.timestamp` and
`start_date = end_date - timedelta(weeks=2)` — a subtraction that raises
`TypeError` when the timestamp is a string, again before the `try:`. -/
def analyze_weekly_volatility (db : HistDB) (a : VolatilityAnalyzer)
    (current_data : PriceData) (now : Int) : Except PyExn (Option VolatilityAlert) :=
  match current_data.timestamp with
  | .str _ => .error .typeError
  | .dt end_date =>
      let start_date := end_date - 14 * 86400
      match db current_data.symbol current_data.market "1w" start_date end_date with
      | .error _ => .ok none
      | .ok historical_data =>
          if historical_data.length < 2 then .ok none
          else
            let latest_data := current_data
            let previous_data :=
              historical_data.getD (historical_data.length - 2) placeholderPriceData
            let change_percent :=
              calculate_change_percent latest_data.close previous_data.close
            let threshold :=
              get_threshold a.thresholds current_data.symbol "weekly" current_data.market
            if threshold ≤ |change_percent| then
              .ok (some { symbol := current_data.symbol, name := current_data.symbol,
                          frequency := "weekly", current_change := change_percent,
                          threshold := threshold, current_price := latest_data.close,
                          previous_price := previous_data.close, timestamp := now })
            else .ok none

/-! ## Shared fixtures for the daily/weekly claims -/

/-- A database with no rows. -/
def exDbEmpty : HistDB := fun _ _ _ _ _ => .ok []

/-- A database whose query always raises (collaborator failure). -/
def exDbFail : HistDB := fun _ _ _ _ _ => .error .dbError

/-- Persisted row with close 10 (the second-latest of `exDbTenTwenty`). -/
def exRowClose10 : PriceData :=
  { symbol := "AAPL", market := "US", timestamp := .str (-172800),
    open_ := 10, high := 10, low := 10, close := 10, frequency := "1d" }

/-- Persisted row with close 20 (the latest of `exDbTenTwenty`). -/
def exRowClose20 : PriceData :=
  { symbol := "AAPL", market := "US", timestamp := .str (-86400),
    open_ := 20, high := 20, low := 20, close := 20, frequency := "1d" }

/-- A database holding exactly the persisted closes 10 then 20. -/
def exDbTenTwenty : HistDB := fun _ _ _ _ _ => .ok [exRowClose10, exRowClose20]

/-- Incoming daily tick with close 30 and a string timestamp (the type the
daily path parses without raising). -/
def exTickStr30 : PriceData :=
  { symbol := "AAPL", market := "US", timestamp := .str 0,
    open_ := 30, high := 30, low := 30, close := 30, frequency := "1d" }

/-- Incoming daily tick with a `datetime` timestamp, exactly as
`VolatilityConsumer.process_message` constructs it
(`timestamp=datetime.fromisoformat(...)`). -/
def exTickDt103 : PriceData :=
  { symbol := "AAPL", market := "US", timestamp := .dt 0,
    open_ := 103, high := 103, low := 103, close := 103, frequency := "1d" }

/-- Incoming tick with close 103 and a string timestamp. -/
def exTickStr103 : PriceData :=
  { symbol := "AAPL", market := "US", timestamp := .str 0,
    open_ := 103, high := 103, low := 103, close := 103, frequency := "1d" }

/-- C6: the claim is right and the code is wrong.  The timestamp handling
of both frequency paths sits before the `try:` block, so it raises out of
the analyze call: the daily path raises `TypeError` on a tick whose
timestamp is a `datetime` — the very shape `VolatilityConsumer` feeds it —
and the weekly path raises `TypeError` on a tick whose timestamp is a
string.  A database failure inside the `try:` IS swallowed into "no
alert" (third conjunct), which isolates the slip to the two pre-`try`
lines. -/
theorem analyze_pre_try_exception_escapes :
    analyze_daily_volatility exDbTenTwenty ⟨[], []⟩ exTickDt103 0 =
      .error .typeError ∧
    analyze_weekly_volatility exDbTenTwenty ⟨[], []⟩ exTickStr103 0 =
      .error .typeError ∧
    analyze_daily_volatility exDbFail ⟨[], []⟩ exTickStr103 0 = .ok none :=
  ⟨rfl, rfl, rfl⟩

/-- Persisted row with close 100 (second-latest of `exDbHundredFive`). -/
def exRowClose100 : PriceData :=
  { symbol := "AAPL", market := "US", timestamp := .str (-172800),
    open_ := 100, high := 100, low := 100, close := 100, frequency := "1d" }

/-- Persisted row with close 105 (latest of `exDbHundredFive`). -/
def exRowClose105 : PriceData :=
  { symbol := "AAPL", market := "US", timestamp := .str (-86400),
    open_ := 105, high := 105, low := 105, close := 105, frequency := "1d" }

/-- A database holding exactly the persisted closes 100 then 105. -/
def exDbHundredFive : HistDB := fun _ _ _ _ _ => .ok [exRowClose100, exRowClose105]

/-- A database holding a single persisted row (close 100). -/
def exDbSingle : HistDB := fun _ _ _ _ _ => .ok [exRowClose100]

/-- Incoming tick with close 98 and a string timestamp: against a prior
close of 100 its change is exactly -2, the boundary of a 2.0 threshold. -/
def exTickStr98 : PriceData :=
  { symbol := "AAPL", market := "US", timestamp := .str 0,
    open_ := 98, high := 98, low := 98, close := 98, frequency := "1d" }

/-- Analyzer fixture for the boundary claim: an explicit daily threshold
of 2 for (AAPL, US) and a cached minute prior with close 100. -/
def exAnalyzerBoundary : VolatilityAnalyzer :=
  { thresholds := [("AAPL_US_daily", 2)],
    price_history := [("US_AAPL", exRowClose100)] }

/-! ## Claims C4, C5, C10 -/

/-- C4: the threshold comparison is inclusive — on both the minute and the
daily path, a computed change whose absolute value is exactly equal to the
threshold produces an alert — and the alert's `current_change` carries the
signed change (the absolute value is used only in the comparison). -/
theorem threshold_comparison_inclusive_and_signed (db : HistDB)
    (a : VolatilityAnalyzer) (t : PriceData) (now : Int) :
    (∀ prior, dictGet a.price_history (symbol_key t) = some prior →
        |calculate_change_percent t.close prior.close| =
          get_threshold a.thresholds t.symbol "minute" t.market →
        (analyze_minute_volatility a t now).1 =
          some { symbol := t.symbol, name := t.symbol, frequency := "minute",
                 current_change := calculate_change_percent t.close prior.close,
                 threshold := get_threshold a.thresholds t.symbol "minute" t.market,
                 current_price := t.close, previous_price := prior.close,
                 timestamp := now }) ∧
    (∀ e hist, t.timestamp = .str e →
        db t.symbol t.market "1d" (e - 4 * 86400) e = .ok hist →
        2 ≤ hist.length →
        |calculate_change_percent t.close
            (hist.getD (hist.length - 2) placeholderPriceData).close| =
          get_threshold a.thresholds t.symbol "daily" t.market →
        analyze_daily_volatility db a t now =
          .ok (some
            { symbol := t.symbol, name := t.symbol, frequency := "daily",
              current_change := calculate_change_percent t.close
                (hist.getD (hist.length - 2) placeholderPriceData).close,
              threshold := get_threshold a.thresholds t.symbol "daily" t.market,
              current_price := t.close,
              previous_price := (hist.getD (hist.length - 2) placeholderPriceData).close,
              timestamp := now })) := by
  constructor
  · intro prior hp heq
    have hle : get_threshold a.thresholds t.symbol "minute" t.market ≤
        |calculate_change_percent t.close prior.close| := le_of_eq heq.symm
    simp [analyze_minute_volatility, hp, hle]
  · intro e hist hts hdb hlen heq
    have hle : get_threshold a.thresholds t.symbol "daily" t.market ≤
        |calculate_change_percent t.close
          (hist.getD (hist.length - 2) placeholderPriceData).close| := le_of_eq heq.symm
    have h2 : ¬ hist.length < 2 := not_lt.mpr hlen
    unfold analyze_daily_volatility
    rw [hts]
    dsimp only [datetime_fromisoformat]
    rw [hdb]
    dsimp only
    rw [if_neg h2, if_pos hle]

/-- Witness for C4: tick close 98 against prior close 100 is a change of
exactly -2; with threshold 2.0 (minute default; explicit daily entry) both
paths fire, and the alerts carry the signed value -2. -/
theorem threshold_comparison_inclusive_and_signed_witness :
    (analyze_minute_volatility exAnalyzerBoundary exTickStr98 9).1 =
      some { symbol := "AAPL", name := "AAPL", frequency := "minute",
             current_change := -2, threshold := 2, current_price := 98,
             previous_price := 100, timestamp := 9 } ∧
    analyze_daily_volatility exDbHundredFive exAnalyzerBoundary exTickStr98 9 =
      .ok (some
        { symbol := "AAPL", name := "AAPL", frequency := "daily",
          current_change := -2, threshold := 2, current_price := 98,
          previous_price := 100, timestamp := 9 }) := by
  have h := threshold_comparison_inclusive_and_signed exDbHundredFive
    exAnalyzerBoundary exTickStr98 9
  constructor
  · refine (h.1 exRowClose100 ?_ ?_).trans ?_
    · simp only [exAnalyzerBoundary, exTickStr98, exRowClose100, symbol_key,
        dictGet, String.reduceAppend, String.reduceEq, reduceIte]
    · simp only [exAnalyzerBoundary, exTickStr98, exRowClose100, get_threshold,
        get_cache_key, get_default_threshold, dictGet, calculate_change_percent,
        String.reduceAppend, String.reduceEq, reduceIte]
      norm_num
    · simp only [exAnalyzerBoundary, exTickStr98, exRowClose100, get_threshold,
        get_cache_key, get_default_threshold, dictGet, calculate_change_percent,
        String.reduceAppend, String.reduceEq, reduceIte]
      norm_num
  · refine (h.2 0 [exRowClose100, exRowClose105] rfl rfl (by norm_num) ?_).trans ?_
    · simp only [exAnalyzerBoundary, exTickStr98, exRowClose100, exRowClose105,
        get_threshold, get_cache_key, get_default_threshold, dictGet,
        calculate_change_percent, List.length_cons, List.length_nil, List.getD,
        String.reduceAppend, String.reduceEq, reduceIte]
      norm_num
    · simp only [exAnalyzerBoundary, exTickStr98, exRowClose100, exRowClose105,
        get_threshold, get_cache_key, get_default_threshold, dictGet,
        calculate_change_percent, List.length_cons, List.length_nil, List.getD,
        String.reduceAppend, String.reduceEq, reduceIte]
      norm_num

/-- C5 counterexample: with persisted closes 10 (second-latest) and 20
(latest) and an incoming daily tick with close 30, the emitted alert's
change is `calculate_change_percent 30 10 = 200` — computed against the
incoming tick's close — whereas the change between the latest and the
second-latest persisted close is `calculate_change_percent 20 10 = 100`.
The code never consults the latest persisted close, falsifying the claim
as stated. -/
theorem daily_change_ignores_latest_persisted_close :
    analyze_daily_volatility exDbTenTwenty ⟨[], []⟩ exTickStr30 7 =
      .ok (some
        { symbol := "AAPL", name := "AAPL", frequency := "daily",
          current_change := 200, threshold := 3, current_price := 30,
          previous_price := 10, timestamp := 7 }) ∧
    calculate_change_percent exRowClose20.close exRowClose10.close = 100 ∧
    (200 : ℚ) ≠ 100 := by
  refine ⟨?_, ?_, by norm_num⟩
  · simp only [analyze_daily_volatility, exDbTenTwenty, exTickStr30, exRowClose10,
      exRowClose20, datetime_fromisoformat, get_threshold, get_cache_key,
      get_default_threshold, dictGet, calculate_change_percent, placeholderPriceData,
      List.getD, List.length_cons, List.length_nil, String.reduceAppend,
      String.reduceEq, reduceIte]
    norm_num
  · norm_num [calculate_change_percent, exRowClose20, exRowClose10]

/-- C5 (amended): for every daily (string-timestamped) or weekly
(datetime-timestamped) tick, the analyzer queries the persisted history
for the frequency's window; if fewer than two records exist it returns no
alert (not an exception); otherwise the percentage change is computed
between the INCOMING TICK's close and the second-latest persisted close
(the latest persisted record is not consulted) and compared inclusively
against the threshold. -/
theorem daily_weekly_history_policy (db : HistDB) (a : VolatilityAnalyzer)
    (t : PriceData) (now : Int) :
    (∀ e hist, t.timestamp = .str e →
        db t.symbol t.market "1d" (e - 4 * 86400) e = .ok hist →
        (hist.length < 2 → analyze_daily_volatility db a t now = .ok none) ∧
        (2 ≤ hist.length →
          analyze_daily_volatility db a t now = .ok (
            if get_threshold a.thresholds t.symbol "daily" t.market ≤
                |calculate_change_percent t.close
                  (hist.getD (hist.length - 2) placeholderPriceData).close| then
              some { symbol := t.symbol, name := t.symbol, frequency := "daily",
                     current_change := calculate_change_percent t.close
                       (hist.getD (hist.length - 2) placeholderPriceData).close,
                     threshold := get_threshold a.thresholds t.symbol "daily" t.market,
                     current_price := t.close,
                     previous_price :=
                       (hist.getD (hist.length - 2) placeholderPriceData).close,
                     timestamp := now }
            else none))) ∧
    (∀ v hist, t.timestamp = .dt v →
        db t.symbol t.market "1w" (v - 14 * 86400) v = .ok hist →
        (hist.length < 2 → analyze_weekly_volatility db a t now = .ok none) ∧
        (2 ≤ hist.length →
          analyze_weekly_volatility db a t now = .ok (
            if get_threshold a.thresholds t.symbol "weekly" t.market ≤
                |calculate_change_percent t.close
                  (hist.getD (hist.length - 2) placeholderPriceData).close| then
              some { symbol := t.symbol, name := t.symbol, frequency := "weekly",
                     current_change := calculate_change_percent t.close
                       (hist.getD (hist.length - 2) placeholderPriceData).close,
                     threshold :=
                       get_threshold a.thresholds t.symbol "weekly" t.market,
                     current_price := t.close,
                     previous_price :=
                       (hist.getD (hist.length - 2) placeholderPriceData).close,
                     timestamp := now }
            else none))) := by
  constructor
  · intro e hist hts hdb
    constructor
    · intro hlt
      unfold analyze_daily_volatility
      rw [hts]
      simp only [datetime_fromisoformat]
      rw [hdb]
      simp [hlt]
    · intro hge
      have h2 : ¬ hist.length < 2 := not_lt.mpr hge
      unfold analyze_daily_volatility
      rw [hts]
      simp only [datetime_fromisoformat]
      rw [hdb]
      simp [h2, apply_ite]
  · intro v hist hts hdb
    constructor
    · intro hlt
      unfold analyze_weekly_volatility
      rw [hts]
      dsimp only
      rw [hdb]
      simp [hlt]
    · intro hge
      have h2 : ¬ hist.length < 2 := not_lt.mpr hge
      unfold analyze_weekly_volatility
      rw [hts]
      dsimp only
      rw [hdb]
      simp [h2, apply_ite]

/-- Witness for C5 (amended): a daily tick over a single persisted record
yields "no alert possible" (`.ok none`), and a weekly tick with close 103
over persisted closes 100 and 105 computes change 3 against the
second-latest close 100, below the weekly default 5, so no alert. -/
theorem daily_weekly_history_policy_witness :
    analyze_daily_volatility exDbSingle ⟨[], []⟩ exTickStr103 3 = .ok none ∧
    analyze_weekly_volatility exDbHundredFive ⟨[], []⟩ exTickDt103 3 = .ok none := by
  constructor
  · exact ((daily_weekly_history_policy exDbSingle ⟨[], []⟩ exTickStr103 3).1
      0 [exRowClose100] rfl rfl).1 (by norm_num)
  · refine (((daily_weekly_history_policy exDbHundredFive ⟨[], []⟩ exTickDt103 3).2
      0 [exRowClose100, exRowClose105] rfl rfl).2 (by norm_num)).trans ?_
    simp only [exTickDt103, exRowClose100, exRowClose105, get_threshold,
      get_cache_key, get_default_threshold, dictGet, calculate_change_percent,
      List.length_cons, List.length_nil, List.getD, String.reduceAppend,
      String.reduceEq, reduceIte]
    norm_num

/-- C10: every alert returned by the analyzer — at minute, daily or weekly
frequency — has its `name` field equal to its `symbol` field: all three
constructors fill `name` with `current_data.symbol`, and no human-readable
name is looked up. -/
theorem alert_name_equals_symbol (db : HistDB) (a : VolatilityAnalyzer)
    (t : PriceData) (now : Int) (al : VolatilityAlert) :
    ((analyze_minute_volatility a t now).1 = some al → al.name = al.symbol) ∧
    (analyze_daily_volatility db a t now = .ok (some al) → al.name = al.symbol) ∧
    (analyze_weekly_volatility db a t now = .ok (some al) → al.name = al.symbol) := by
  refine ⟨?_, ?_, ?_⟩ <;> intro h
  · unfold analyze_minute_volatility at h
    rcases hd : dictGet a.price_history (symbol_key t) with _ | prior <;>
      rw [hd] at h <;> dsimp only at h
    · simp at h
    · by_cases hb : get_threshold a.thresholds t.symbol "minute" t.market ≤
          |calculate_change_percent t.close prior.close|
      · rw [if_pos hb] at h
        have h' := Option.some.inj h
        subst h'
        rfl
      · rw [if_neg hb] at h
        simp at h
  · unfold analyze_daily_volatility at h
    rcases hts : datetime_fromisoformat t.timestamp with e | d <;>
      rw [hts] at h <;> dsimp only at h
    · simp at h
    · rcases hdb : db t.symbol t.market "1d" (d - 4 * 86400) d with e | hist <;>
        rw [hdb] at h <;> dsimp only at h
      · simp at h
      · by_cases hlt : hist.length < 2
        · rw [if_pos hlt] at h
          simp at h
        · rw [if_neg hlt] at h
          by_cases hb : get_threshold a.thresholds t.symbol "daily" t.market ≤
              |calculate_change_percent t.close
                (hist.getD (hist.length - 2) placeholderPriceData).close|
          · rw [if_pos hb] at h
            have h' := Option.some.inj (Except.ok.inj h)
            subst h'
            rfl
          · rw [if_neg hb] at h
            simp at h
  · unfold analyze_weekly_volatility at h
    rcases hts : t.timestamp with v | v <;>
      rw [hts] at h <;> dsimp only at h
    · simp at h
    · rcases hdb : db t.symbol t.market "1w" (v - 14 * 86400) v with e | hist <;>
        rw [hdb] at h <;> dsimp only at h
      · simp at h
      · by_cases hlt : hist.length < 2
        · rw [if_pos hlt] at h
          simp at h
        · rw [if_neg hlt] at h
          by_cases hb : get_threshold a.thresholds t.symbol "weekly" t.market ≤
              |calculate_change_percent t.close
                (hist.getD (hist.length - 2) placeholderPriceData).close|
          · rw [if_pos hb] at h
            have h' := Option.some.inj (Except.ok.inj h)
            subst h'
            rfl
          · rw [if_neg hb] at h
            simp at h

/-- Witness for C10: the C4 boundary fixture's minute alert, whose
rendered identity line would show "AAPL(AAPL)". -/
theorem alert_name_equals_symbol_witness :
    ({ symbol := "AAPL", name := "AAPL", frequency := "minute",
       current_change := -2, threshold := 2, current_price := 98,
       previous_price := 100, timestamp := 9 } : VolatilityAlert).name =
    ({ symbol := "AAPL", name := "AAPL", frequency := "minute",
       current_change := -2, threshold := 2, current_price := 98,
       previous_price := 100, timestamp := 9 } : VolatilityAlert).symbol := by
  refine (alert_name_equals_symbol exDbEmpty exAnalyzerBoundary exTickStr98 9
    { symbol := "AAPL", name := "AAPL", frequency := "minute",
      current_change := -2, threshold := 2, current_price := 98,
      previous_price := 100, timestamp := 9 }).1 ?_
  simp only [analyze_minute_volatility, exAnalyzerBoundary, exTickStr98,
    exRowClose100, symbol_key, dictGet, get_threshold, get_cache_key,
    get_default_threshold, calculate_change_percent, String.reduceAppend,
    String.reduceEq, reduceIte]
  norm_num

/-! ## `core/notifiers/wechat_notifier.py`

`WeChatNotifier._format_alert_message` renders an alert through Python
f-string format specs: `{x:+.2f}` (signed fixed-point, two decimals),
`{x:.4f}` (fixed-point, four decimals), `{x}` on a float (`str(float)`:
shortest exact decimal, at least one fractional digit) and
`strftime('%Y-%m-%d %H:%M:%S')`.  The format specs are modelled below on
rationals with round-half-to-even, the rounding Python applies. -/

/-- Round to the nearest integer, ties to even — the rounding used by
Python fixed-point formatting. -/
def roundHalfEven (q : ℚ) : Int :=
  let f := ⌊q⌋
  let frac := q - f
  if frac < 1/2 then f
  else if 1/2 < frac then f + 1
  else if f % 2 = 0 then f else f + 1

/-- Zero-pad a natural to the given width. -/
def natPad (width n : Nat) : String :=
  let s := toString n
  String.mk (List.replicate (width - s.length) '0') ++ s

/-- Python `format(q, '.df')`: fixed-point, `d` fractional digits,
round-half-to-even; a negative value keeps its minus sign even when the
rounded magnitude is zero. -/
def fmtFixed (d : Nat) (q : ℚ) : String :=
  let r := roundHalfEven (q * (10 : ℚ) ^ d)
  let a := r.natAbs
  let core := toString (a / 10 ^ d) ++ "." ++ natPad d (a % 10 ^ d)
  if q < 0 then "-" ++ core else core

/-- Python `format(q, '+.df')`: as `fmtFixed`, with an explicit plus sign
on non-negative values. -/
def fmtSignedFixed (d : Nat) (q : ℚ) : String :=
  if q < 0 then fmtFixed d q else "+" ++ fmtFixed d q

/-- Fractional decimal digits needed to write `q` exactly, up to the
float-repr maximum of 17 (fuel-bounded scan). -/
def minDecDigitsAux : Nat → ℚ → Nat
  | 0, _ => 0
  | fuel + 1, q => if q.den = 1 then 0 else 1 + minDecDigitsAux fuel (q * 10)

/-- Python `str(float)` as used by `f"{alert.threshold}%"`: shortest exact
decimal with at least one fractional digit (`str(2.0) = "2.0"`). -/
def pyFloatStr (q : ℚ) : String :=
  fmtFixed (max (minDecDigitsAux 17 q) 1) q

/-- Gregorian date from days since 1970-01-01 (civil-from-days). -/
def civilFromDays (z0 : Int) : Int × Nat × Nat :=
  let z := z0 + 719468
  let era := Int.fdiv z 146097
  let doe := (z - era * 146097).toNat
  let yoe := (doe - doe / 1460 + doe / 36524 - doe / 146096) / 365
  let doy := doe - (365 * yoe + yoe / 4 - yoe / 100)
  let mp := (5 * doy + 2) / 153
  let d := doy - (153 * mp + 2) / 5 + 1
  let m := if mp < 10 then mp + 3 else mp - 9
  (if m ≤ 2 then era * 400 + yoe + 1 else era * 400 + yoe, m, d)

/-- `timestamp.strftime('%Y-%m-%d %H:%M:%S')` on epoch seconds. -/
def strftimeYmdHms (t : Int) : String :=
  let days := Int.fdiv t 86400
  let secs := (t - days * 86400).toNat
  let c := civilFromDays days
  natPad 4 c.1.toNat ++ "-" ++ natPad 2 c.2.1 ++ "-" ++ natPad 2 c.2.2 ++ " " ++
    natPad 2 (secs / 3600) ++ ":" ++ natPad 2 (secs % 3600 / 60) ++ ":" ++
    natPad 2 (secs % 60)

/-- The frequency-label dict
`{'minute': '分钟级', 'daily': '日级', 'weekly': '周级'}.get(frequency, '波动')`. -/
def frequency_text (frequency : String) : String :=
  if frequency = "minute" then "分钟级"
  else if frequency = "daily" then "日级"
  else if frequency = "weekly" then "周级"
  else "波动"

/-- `WeChatNotifier._format_alert_message`. -/
def format_alert_message (alert : VolatilityAlert) : String :=
  let trend_icon := if 0 < alert.current_change then "📈" else "📉"
  trend_icon ++ " 【" ++ frequency_text alert.frequency ++ "波动告警】\n" ++
    "标的: " ++ alert.name ++ "(" ++ alert.symbol ++ ")\n" ++
    "涨跌幅: " ++ fmtSignedFixed 2 alert.current_change ++ "% (阈值: " ++
    pyFloatStr alert.threshold ++ "%)\n" ++
    "当前价: " ++ fmtFixed 4 alert.current_price ++ "\n" ++
    "参考价: " ++ fmtFixed 4 alert.previous_price ++ "\n" ++
    "时间: " ++ strftimeYmdHms alert.timestamp

/-- C9: the rendered notification follows the fixed template — the trend
emoji is the "up" icon exactly when `current_change > 0` and the "down"
icon otherwise (also at exactly 0); the frequency labels map
minute→分钟级, daily→日级, weekly→周级; the change is rendered signed with
2 decimals next to the threshold and the prices with 4 decimals
(illustrated by the sample renderings in the last conjuncts). -/
theorem format_alert_message_spec (alert : VolatilityAlert) :
    ((0 < alert.current_change → format_alert_message alert =
        "📈" ++ " 【" ++ frequency_text alert.frequency ++ "波动告警】\n" ++
          "标的: " ++ alert.name ++ "(" ++ alert.symbol ++ ")\n" ++
          "涨跌幅: " ++ fmtSignedFixed 2 alert.current_change ++ "% (阈值: " ++
          pyFloatStr alert.threshold ++ "%)\n" ++
          "当前价: " ++ fmtFixed 4 alert.current_price ++ "\n" ++
          "参考价: " ++ fmtFixed 4 alert.previous_price ++ "\n" ++
          "时间: " ++ strftimeYmdHms alert.timestamp) ∧
      (alert.current_change ≤ 0 → format_alert_message alert =
        "📉" ++ " 【" ++ frequency_text alert.frequency ++ "波动告警】\n" ++
          "标的: " ++ alert.name ++ "(" ++ alert.symbol ++ ")\n" ++
          "涨跌幅: " ++ fmtSignedFixed 2 alert.current_change ++ "% (阈值: " ++
          pyFloatStr alert.threshold ++ "%)\n" ++
          "当前价: " ++ fmtFixed 4 alert.current_price ++ "\n" ++
          "参考价: " ++ fmtFixed 4 alert.previous_price ++ "\n" ++
          "时间: " ++ strftimeYmdHms alert.timestamp)) ∧
    (frequency_text "minute" = "分钟级" ∧ frequency_text "daily" = "日级" ∧
      frequency_text "weekly" = "周级") ∧
    (fmtSignedFixed 2 (3 : ℚ) = "+3.00" ∧ fmtSignedFixed 2 (-5/2 : ℚ) = "-2.50" ∧
      fmtFixed 4 (103 : ℚ) = "103.0000" ∧ fmtFixed 4 (1234/10000 : ℚ) = "0.1234") := by
  refine ⟨⟨?_, ?_⟩, ⟨rfl, rfl, rfl⟩, ?_, ?_, ?_, ?_⟩
  · intro hpos
    unfold format_alert_message
    dsimp only
    rw [if_pos hpos]
  · intro hneg
    unfold format_alert_message
    dsimp only
    rw [if_neg (not_lt.mpr hneg)]
  · have h : roundHalfEven ((3 : ℚ) * (10 : ℚ) ^ (2 : Nat)) = 300 := by
      norm_num [roundHalfEven]
    simp only [fmtSignedFixed, fmtFixed, h]
    norm_num
    rfl
  · have h : roundHalfEven ((-5/2 : ℚ) * (10 : ℚ) ^ (2 : Nat)) = -250 := by
      norm_num [roundHalfEven]
    simp only [fmtSignedFixed, fmtFixed, h]
    norm_num
    rfl
  · have h : roundHalfEven ((103 : ℚ) * (10 : ℚ) ^ (4 : Nat)) = 1030000 := by
      norm_num [roundHalfEven]
    simp only [fmtFixed, h]
    norm_num
    rfl
  · have h : roundHalfEven ((1234/10000 : ℚ) * (10 : ℚ) ^ (4 : Nat)) = 1234 := by
      norm_num [roundHalfEven]
    simp only [fmtFixed, h]
    norm_num
    rfl

/-- Witness for C9: a concrete alert (AAPL, minute, change 3, threshold 2,
prices 103/100, epoch 0) renders to the exact template instance. -/
theorem format_alert_message_spec_witness :
    format_alert_message
      { symbol := "AAPL", name := "AAPL", frequency := "minute",
        current_change := 3, threshold := 2, current_price := 103,
        previous_price := 100, timestamp := 0 } =
      "📈" ++ " 【" ++ "分钟级" ++ "波动告警】\n" ++
        "标的: " ++ "AAPL" ++ "(" ++ "AAPL" ++ ")\n" ++
        "涨跌幅: " ++ "+3.00" ++ "% (阈值: " ++ "2.0" ++ "%)\n" ++
        "当前价: " ++ "103.0000" ++ "\n" ++
        "参考价: " ++ "100.0000" ++ "\n" ++
        "时间: " ++ "1970-01-01 00:00:00" := by
  have h := (format_alert_message_spec
    { symbol := "AAPL", name := "AAPL", frequency := "minute",
      current_change := 3, threshold := 2, current_price := 103,
      previous_price := 100, timestamp := 0 }).1.1 (by norm_num)
  refine h.trans ?_
  have h300 : roundHalfEven ((3 : ℚ) * (10 : ℚ) ^ (2 : Nat)) = 300 := by
    norm_num [roundHalfEven]
  have h103 : roundHalfEven ((103 : ℚ) * (10 : ℚ) ^ (4 : Nat)) = 1030000 := by
    norm_num [roundHalfEven]
  have h100 : roundHalfEven ((100 : ℚ) * (10 : ℚ) ^ (4 : Nat)) = 1000000 := by
    norm_num [roundHalfEven]
  have hd2 : minDecDigitsAux 17 (2 : ℚ) = 0 := by
    norm_num [minDecDigitsAux]
  have h20 : roundHalfEven ((2 : ℚ) * (10 : ℚ) ^ (1 : Nat)) = 20 := by
    norm_num [roundHalfEven]
  have hth : pyFloatStr (2 : ℚ) = "2.0" := by
    simp only [pyFloatStr, hd2, Nat.zero_max]
    simp only [fmtFixed, h20]
    norm_num
    rfl
  dsimp only
  rw [hth]
  simp only [fmtSignedFixed, fmtFixed, h300, h103, h100]
  norm_num
  rfl

end FinanceMonitor
